import Mathlib

/-!
# CSCSamplingGraph (graphbolt): construction, Save and Load

A shallow embedding of `graphbolt/src/csc_sampling_graph.cc`.

* Tensors, archive values and the archive itself belong to the tensor runtime
  the source links against; they are modelled here as plain data.
* A C++ exception is an `Except.error`; `Load`, which assigns members one at a
  time, returns the instance as it stands when the call ends together with the
  outcome, so that a throw part-way keeps the assignments already made.
* `kCSCSamplingGraphSerializeMagic` is declared in a header that is not part of
  the sources; it is a parameter of `Load` and `Save`.
-/

set_option autoImplicit false

namespace graphbolt
namespace sampling

/-! ## The tensor runtime -/

/-- Modelled from the spec: the storage location (host or accelerator memory) of a buffer. -/
inductive DeviceType where
  | CPU
  | CUDA
  deriving DecidableEq, Repr

/-- Modelled from the spec: a device is a kind of memory and an ordinal. -/
structure Device where
  type : DeviceType
  index : Int
  deriving DecidableEq, Repr

/-- Modelled from the spec: element types of a buffer. -/
inductive ScalarType where
  | Byte
  | Int32
  | Int64
  | Float
  | Undefined
  deriving DecidableEq, Repr

/-- Modelled from the spec: `torch::Tensor`, a buffer with a shape (its rank is
the number of extents), an element type, a storage location and its contents in
row-major order. -/
structure Tensor where
  sizes : List Nat
  dtype : ScalarType
  device : Device
  data : List Int
  deriving DecidableEq, Repr

/-- The failures the source can raise. -/
inductive Error where
  /-- A `TORCH_CHECK(cond, msg)` whose condition is false. -/
  | check_failed (cond : String) (msg : String)
  /-- The call `size(d)` on a tensor that has no dimension `d`. -/
  | index_error (d : Nat)
  /-- An archive read of a key the archive does not hold. -/
  | missing_field (key : String)
  /-- The call `toInt`, `toBool` or `toTensor` on a value of another kind. -/
  | type_error (expected : String)
  deriving DecidableEq, Repr

deriving instance DecidableEq for Except

/-- Rank of a tensor: `Tensor::dim()`. -/
def Tensor.dim (t : Tensor) : Nat := t.sizes.length

/-- Extent of dimension `d`: `Tensor::size(d)`; it raises when `d` is out of range. -/
def Tensor.size (t : Tensor) (d : Nat) : Except Error Nat :=
  match t.sizes.get? d with
  | some n => .ok n
  | none => .error (.index_error d)

/-- Modelled from the spec: a default-constructed (undefined) tensor. -/
def Tensor.undefined : Tensor :=
  { sizes := [0], dtype := .Undefined, device := { type := .CPU, index := -1 }, data := [] }

/-- Modelled from the spec: `torch::IValue`, the value of one archive field. -/
inductive IValue where
  | none
  | int (n : Int)
  | bool (b : Bool)
  | tensor (t : Tensor)
  deriving DecidableEq, Repr

/-- Conversion `IValue::toInt()`: raises unless the value is an integer. -/
def IValue.toInt : IValue → Except Error Int
  | .int n => .ok n
  | _ => .error (.type_error "int")

/-- Conversion `IValue::toBool()`: raises unless the value is a boolean. -/
def IValue.toBool : IValue → Except Error Bool
  | .bool b => .ok b
  | _ => .error (.type_error "bool")

/-- Conversion `IValue::toTensor()`: raises unless the value is a tensor. -/
def IValue.toTensor : IValue → Except Error Tensor
  | .tensor t => .ok t
  | _ => .error (.type_error "Tensor")

/-! ## The archive -/

/-- Modelled from the spec: an archive is the sequence of named fields written
to it, oldest first. -/
abbrev Archive := List (String × IValue)

/-- Modelled from the spec: `OutputArchive::write` appends one named field and
rewrites nothing written before. -/
def Archive.write (archive : Archive) (key : String) (value : IValue) : Archive :=
  archive ++ [(key, value)]

/-- Modelled from the spec: `InputArchive::read` finds a field by name; the
most recent field of that name is the one found. -/
def Archive.read (archive : Archive) (key : String) : Option IValue :=
  (archive.reverse.find? (fun p => p.1 == key)).map (fun p => p.2)

/-- Modelled from the spec: `read_from_archive` of `graphbolt/serialize.h`
returns the named field and raises when the archive has no such field. -/
def read_from_archive (archive : Archive) (key : String) : Except Error IValue :=
  match archive.read key with
  | some v => .ok v
  | none => .error (.missing_field key)

/-! ## The graph -/

/-- The four members of `CSCSamplingGraph`. -/
structure CSCSamplingGraph where
  indptr_ : Tensor
  indices_ : Tensor
  node_type_offset_ : Option Tensor
  type_per_edge_ : Option Tensor
  deriving DecidableEq, Repr

/-- Modelled from the spec: a freshly allocated, unpopulated instance: both
tensors default-constructed, both optional members unset. -/
def CSCSamplingGraph.fresh : CSCSamplingGraph :=
  { indptr_ := Tensor.undefined, indices_ := Tensor.undefined,
    node_type_offset_ := none, type_per_edge_ := none }

/-- The constructor `CSCSamplingGraph::CSCSamplingGraph` (named `init` here,
the type itself bearing the name): the members are initialised from the
arguments, then three checks run in order. -/
def CSCSamplingGraph.init (indptr indices : Tensor)
    (node_type_offset type_per_edge : Option Tensor) : Except Error CSCSamplingGraph :=
  if indptr.dim ≠ 1 then .error (.check_failed "indptr.dim() == 1" "")
  else if indices.dim ≠ 1 then .error (.check_failed "indices.dim() == 1" "")
  else if indptr.device ≠ indices.device then
    .error (.check_failed "indptr.device() == indices.device()" "")
  else .ok { indptr_ := indptr, indices_ := indices,
             node_type_offset_ := node_type_offset, type_per_edge_ := type_per_edge }

/-- The check `FromCSC` makes on `node_type_offset` when it is supplied. -/
def FromCSC.check_node_type_offset : Option Tensor → Except Error Unit
  | none => .ok ()
  | some offset =>
    if offset.dim ≠ 1 then .error (.check_failed "offset.dim() == 1" "") else .ok ()

/-- The two checks `FromCSC` makes on `type_per_edge` when it is supplied. -/
def FromCSC.check_type_per_edge (indices : Tensor) : Option Tensor → Except Error Unit
  | none => .ok ()
  | some value =>
    if value.dim ≠ 1 then .error (.check_failed "type_per_edge.value().dim() == 1" "")
    else
      match value.size 0 with
      | .error e => .error e
      | .ok n =>
        match indices.size 0 with
        | .error e => .error e
        | .ok m =>
          if n ≠ m then
            .error (.check_failed "type_per_edge.value().size(0) == indices.size(0)" "")
          else .ok ()

/-- The factory `CSCSamplingGraph::FromCSC`. -/
def CSCSamplingGraph.FromCSC (indptr indices : Tensor)
    (node_type_offset type_per_edge : Option Tensor) : Except Error CSCSamplingGraph :=
  match FromCSC.check_node_type_offset node_type_offset with
  | .error e => .error e
  | .ok () =>
    match FromCSC.check_type_per_edge indices type_per_edge with
    | .error e => .error e
    | .ok () =>
      CSCSamplingGraph.init indptr indices node_type_offset type_per_edge

/-- The message of the magic-number check of `Load`. -/
def magic_mismatch : Error :=
  .check_failed "magic_num == kCSCSamplingGraphSerializeMagic"
    "Magic numbers mismatch when loading CSCSamplingGraph."

/-- The method `CSCSamplingGraph::Load`. The result is the instance as the call
leaves it, and whether the call returned or raised. -/
def CSCSamplingGraph.Load (kCSCSamplingGraphSerializeMagic : Int)
    (self : CSCSamplingGraph) (archive : Archive) :
    CSCSamplingGraph × Except Error Unit :=
  match (read_from_archive archive "CSCSamplingGraph/magic_num").bind IValue.toInt with
  | .error e => (self, .error e)
  | .ok magic_num =>
  if magic_num ≠ kCSCSamplingGraphSerializeMagic then (self, .error magic_mismatch)
  else
  match (read_from_archive archive "CSCSamplingGraph/indptr").bind IValue.toTensor with
  | .error e => (self, .error e)
  | .ok indptr =>
  let self₁ := { self with indptr_ := indptr }
  match (read_from_archive archive "CSCSamplingGraph/indices").bind IValue.toTensor with
  | .error e => (self₁, .error e)
  | .ok indices =>
  let self₂ := { self₁ with indices_ := indices }
  match (read_from_archive archive "CSCSamplingGraph/has_node_type_offset").bind
      IValue.toBool with
  | .error e => (self₂, .error e)
  | .ok has_node_type_offset =>
  match (if has_node_type_offset then
      match (read_from_archive archive "CSCSamplingGraph/node_type_offset").bind
          IValue.toTensor with
      | .error e => (self₂, Except.error e)
      | .ok t => ({ self₂ with node_type_offset_ := some t }, Except.ok ())
    else (self₂, Except.ok ())) with
  | (self₃, .error e) => (self₃, .error e)
  | (self₃, .ok ()) =>
  match (read_from_archive archive "CSCSamplingGraph/has_type_per_edge").bind
      IValue.toBool with
  | .error e => (self₃, .error e)
  | .ok has_type_per_edge =>
  if has_type_per_edge then
    match (read_from_archive archive "CSCSamplingGraph/type_per_edge").bind
        IValue.toTensor with
    | .error e => (self₃, .error e)
    | .ok t => ({ self₃ with type_per_edge_ := some t }, .ok ())
  else (self₃, .ok ())

/-- The method `CSCSamplingGraph::Save`. The result is the instance and the
archive as the call leaves them. -/
def CSCSamplingGraph.Save (kCSCSamplingGraphSerializeMagic : Int)
    (self : CSCSamplingGraph) (archive : Archive) : CSCSamplingGraph × Archive :=
  let archive := archive.write "CSCSamplingGraph/magic_num"
    (.int kCSCSamplingGraphSerializeMagic)
  let archive := archive.write "CSCSamplingGraph/indptr" (.tensor self.indptr_)
  let archive := archive.write "CSCSamplingGraph/indices" (.tensor self.indices_)
  let archive := archive.write "CSCSamplingGraph/has_node_type_offset"
    (.bool self.node_type_offset_.isSome)
  let archive :=
    match self.node_type_offset_ with
    | some value => archive.write "CSCSamplingGraph/node_type_offset" (.tensor value)
    | none => archive
  let archive := archive.write "CSCSamplingGraph/has_type_per_edge"
    (.bool self.type_per_edge_.isSome)
  let archive :=
    match self.type_per_edge_ with
    | some value => archive.write "CSCSamplingGraph/type_per_edge" (.tensor value)
    | none => archive
  (self, archive)

/-- Modelled from the spec: the derived scalar `num_nodes() = indptr.length - 1`. -/
def CSCSamplingGraph.num_nodes (self : CSCSamplingGraph) : Except Error Int :=
  (self.indptr_.size 0).map (fun n => (n : Int) - 1)

/-- Modelled from the spec: the derived scalar `num_edges() = indices.length`. -/
def CSCSamplingGraph.num_edges (self : CSCSamplingGraph) : Except Error Int :=
  (self.indices_.size 0).map (fun n => (n : Int))

/-! ## Sample data -/

/-- A rank-1 host tensor of 64-bit integers with the given contents. -/
def vec (xs : List Int) : Tensor :=
  { sizes := [xs.length], dtype := .Int64, device := { type := .CPU, index := -1 }, data := xs }

/-- The graph of the spec's example: `indptr = [0,2,3,3]`, `indices = [1,2,0]`. -/
def sample_graph : CSCSamplingGraph :=
  { indptr_ := vec [0, 2, 3, 3], indices_ := vec [1, 2, 0],
    node_type_offset_ := some (vec [0, 2, 3]), type_per_edge_ := none }

/-- A graph whose `indptr` announces five edges and whose `indices` is empty. -/
def dangling_graph : CSCSamplingGraph :=
  { indptr_ := vec [0, 5], indices_ := vec [],
    node_type_offset_ := none, type_per_edge_ := none }

/-- A graph of one node and one edge with both optional members present. -/
def typed_graph : CSCSamplingGraph :=
  { indptr_ := vec [0, 1], indices_ := vec [0],
    node_type_offset_ := some (vec [0, 1]), type_per_edge_ := some (vec [4]) }

/-- A graph of three nodes and three edges with neither optional member. -/
def plain_graph : CSCSamplingGraph :=
  { indptr_ := vec [0, 2, 3, 3], indices_ := vec [1, 2, 0],
    node_type_offset_ := none, type_per_edge_ := none }

/-- An archive whose two presence flags are false and which holds both optional
fields all the same. -/
def stray_archive : Archive :=
  [("CSCSamplingGraph/magic_num", .int 7),
   ("CSCSamplingGraph/indptr", .tensor (vec [0, 2, 3, 3])),
   ("CSCSamplingGraph/indices", .tensor (vec [1, 2, 0])),
   ("CSCSamplingGraph/has_node_type_offset", .bool false),
   ("CSCSamplingGraph/node_type_offset", .tensor (vec [0, 2, 3])),
   ("CSCSamplingGraph/has_type_per_edge", .bool false),
   ("CSCSamplingGraph/type_per_edge", .tensor (vec [0, 0, 1]))]

/-- A rank-2 host tensor of two rows and one column. -/
def grid : Tensor :=
  { sizes := [2, 1], dtype := .Int64, device := { type := .CPU, index := -1 }, data := [0, 1] }

/-- A rank-0 host tensor: a single number without any extent. -/
def scalar : Tensor :=
  { sizes := [], dtype := .Int64, device := { type := .CPU, index := -1 }, data := [0] }

/-- A rank-1 accelerator tensor of 64-bit integers with the given contents. -/
def cuda_vec (xs : List Int) : Tensor :=
  { sizes := [xs.length], dtype := .Int64, device := { type := .CUDA, index := 0 }, data := xs }

/-- A graph `FromCSC` accepts although `indptr` is empty, `indices` holds one
edge, and the optional members sit on another device, `node_type_offset`
starting at 3 and decreasing. -/
def unchecked_graph : CSCSamplingGraph :=
  { indptr_ := vec [], indices_ := vec [7],
    node_type_offset_ := some (cuda_vec [3, 1]), type_per_edge_ := some (cuda_vec [0]) }

/-- An archive that `Load` accepts and whose `indptr` field is a rank-2 tensor. -/
def unvalidated_archive : Archive :=
  [("CSCSamplingGraph/magic_num", .int 7),
   ("CSCSamplingGraph/indptr", .tensor grid),
   ("CSCSamplingGraph/indices", .tensor (vec [1, 2, 0])),
   ("CSCSamplingGraph/has_node_type_offset", .bool false),
   ("CSCSamplingGraph/has_type_per_edge", .bool false)]

/-- The instance `Load` makes of `unvalidated_archive`. -/
def unvalidated_graph : CSCSamplingGraph :=
  { indptr_ := grid, indices_ := vec [1, 2, 0],
    node_type_offset_ := none, type_per_edge_ := none }

/-- An archive cut off after `node_type_offset`: it has no `has_type_per_edge` field. -/
def truncated_archive : Archive :=
  [("CSCSamplingGraph/magic_num", .int 7),
   ("CSCSamplingGraph/indptr", .tensor (vec [0, 2, 3, 3])),
   ("CSCSamplingGraph/indices", .tensor (vec [1, 2, 0])),
   ("CSCSamplingGraph/has_node_type_offset", .bool true),
   ("CSCSamplingGraph/node_type_offset", .tensor (vec [0, 2, 3]))]

/-! ## Vocabulary of the properties -/

/-- The errors raised by a check on the arguments of a call (a failed
`TORCH_CHECK`, an out-of-range dimension), as opposed to those raised by an
archive read or a conversion of an archive value. -/
def Error.isInvalidArgument : Error → Bool
  | .check_failed _ _ => true
  | .index_error _ => true
  | .missing_field _ => false
  | .type_error _ => false

/-- The last element of a buffer, if it has one. -/
def Tensor.last (t : Tensor) : Option Int := t.data.getLast?

/-- The fields the archive layout prescribes for a graph, in the layout's
order: the magic number, `indptr`, `indices`, the flag of `node_type_offset`,
that member if and only if it is present, the flag of `type_per_edge`, that
member if and only if it is present. -/
def layout_fields (k : Int) (g : CSCSamplingGraph) : List (String × IValue) :=
  [("CSCSamplingGraph/magic_num", .int k),
   ("CSCSamplingGraph/indptr", .tensor g.indptr_),
   ("CSCSamplingGraph/indices", .tensor g.indices_),
   ("CSCSamplingGraph/has_node_type_offset", .bool g.node_type_offset_.isSome)]
  ++ (match g.node_type_offset_ with
      | some t => [("CSCSamplingGraph/node_type_offset", .tensor t)]
      | none => [])
  ++ [("CSCSamplingGraph/has_type_per_edge", .bool g.type_per_edge_.isSome)]
  ++ (match g.type_per_edge_ with
      | some t => [("CSCSamplingGraph/type_per_edge", .tensor t)]
      | none => [])

/-- The named field is present in the archive and holds an integer. -/
def Archive.has_int (archive : Archive) (key : String) : Bool :=
  match archive.read key with
  | some (.int _) => true
  | _ => false

/-- The named field is present in the archive and holds a boolean. -/
def Archive.has_bool (archive : Archive) (key : String) : Bool :=
  match archive.read key with
  | some (.bool _) => true
  | _ => false

/-- The named field is present in the archive and holds a tensor. -/
def Archive.has_tensor (archive : Archive) (key : String) : Bool :=
  match archive.read key with
  | some (.tensor _) => true
  | _ => false

/-- Whether a sequence of integers never decreases. -/
def nondecreasing : List Int → Bool
  | [] => true
  | [_] => true
  | a :: b :: rest => decide (a ≤ b) && nondecreasing (b :: rest)

/-- Invariant of the data model: `indptr.length >= 1`. -/
def CSCSamplingGraph.indptr_nonempty (g : CSCSamplingGraph) : Bool :=
  match g.indptr_.size 0 with
  | .ok n => decide (1 ≤ n)
  | .error _ => false

/-- Invariant of the data model: `indices.length == indptr[last]`. -/
def CSCSamplingGraph.indices_length_is_last_indptr (g : CSCSamplingGraph) : Bool :=
  match g.indices_.size 0 with
  | .ok m => decide (g.indptr_.last = some (m : Int))
  | .error _ => false

/-- Invariant of the data model: all present buffers share one storage location. -/
def CSCSamplingGraph.one_storage_location (g : CSCSamplingGraph) : Bool :=
  decide (g.indptr_.device = g.indices_.device) &&
  (match g.node_type_offset_ with
   | some t => decide (t.device = g.indptr_.device)
   | none => true) &&
  (match g.type_per_edge_ with
   | some t => decide (t.device = g.indptr_.device)
   | none => true)

/-- Invariant of the data model: `type_per_edge.length == indices.length` when
`type_per_edge` is present. -/
def CSCSamplingGraph.type_per_edge_aligned (g : CSCSamplingGraph) : Bool :=
  match g.type_per_edge_ with
  | some t => decide (t.size 0 = g.indices_.size 0)
  | none => true

/-- Invariant of the data model: `node_type_offset` is monotonic from 0 when present. -/
def CSCSamplingGraph.node_type_offset_monotonic (g : CSCSamplingGraph) : Bool :=
  match g.node_type_offset_ with
  | some t => decide (t.data.head? = some 0) && nondecreasing t.data
  | none => true

/-- The five invariants of the data model together. -/
def CSCSamplingGraph.data_model_invariants (g : CSCSamplingGraph) : Bool :=
  g.indptr_nonempty && g.indices_length_is_last_indptr && g.one_storage_location &&
  g.type_per_edge_aligned && g.node_type_offset_monotonic

/-- The tensor an archive stores for an optional member: the field `key` when
the flag field `flag` is true and `key` holds a tensor, nothing otherwise. -/
def Archive.flagged_tensor (archive : Archive) (flag key : String) : Option Tensor :=
  match archive.read flag with
  | some (.bool true) =>
    match archive.read key with
    | some (.tensor t) => some t
    | _ => none
  | _ => none

/-- The six checks of construction through `FromCSC`. -/
inductive Check where
  | node_type_offset_rank
  | type_per_edge_rank
  | type_per_edge_length
  | indptr_rank
  | indices_rank
  | storage_location
  deriving DecidableEq, Repr

/-- The order in which the checks are to be reported. -/
def Check.order : List Check :=
  [.node_type_offset_rank, .type_per_edge_rank, .type_per_edge_length,
   .indptr_rank, .indices_rank, .storage_location]

/-- The length of a buffer: its first extent, if it has one. A rank-0 buffer has
no length. -/
def Tensor.length (t : Tensor) : Option Nat := t.sizes.head?

/-- Whether the arguments violate a check; the checks on an optional argument
are violated only when it is supplied, and two lengths differ only when both
buffers have one. -/
def Check.violated (indptr indices : Tensor) (nto tpe : Option Tensor) : Check → Bool
  | .node_type_offset_rank =>
    match nto with
    | some t => decide (t.dim ≠ 1)
    | none => false
  | .type_per_edge_rank =>
    match tpe with
    | some t => decide (t.dim ≠ 1)
    | none => false
  | .type_per_edge_length =>
    match tpe with
    | some t =>
      match t.length, indices.length with
      | some n, some m => decide (n ≠ m)
      | _, _ => false
    | none => false
  | .indptr_rank => decide (indptr.dim ≠ 1)
  | .indices_rank => decide (indices.dim ≠ 1)
  | .storage_location => decide (indptr.device ≠ indices.device)

/-- The first check, in the order of report, that the arguments violate. -/
def first_violated (indptr indices : Tensor) (nto tpe : Option Tensor) : Option Check :=
  Check.order.find? (Check.violated indptr indices nto tpe)

/-- The checks on the optional arguments. -/
def Check.is_optional : Check → Bool
  | .node_type_offset_rank => true
  | .type_per_edge_rank => true
  | .type_per_edge_length => true
  | _ => false

/-- The check an error reports: the one whose `TORCH_CHECK` condition failed.
Any other error, the out-of-range `size(d)` among them, reports none of the six
checks. -/
def Error.reported_check : Error → Option Check
  | .check_failed cond _ =>
    if cond = "offset.dim() == 1" then some .node_type_offset_rank
    else if cond = "type_per_edge.value().dim() == 1" then some .type_per_edge_rank
    else if cond = "type_per_edge.value().size(0) == indices.size(0)" then
      some .type_per_edge_length
    else if cond = "indptr.dim() == 1" then some .indptr_rank
    else if cond = "indices.dim() == 1" then some .indices_rank
    else if cond = "indptr.device() == indices.device()" then some .storage_location
    else none
  | _ => none

/-- The arguments whose lengths cannot be compared although both optional
arguments pass their rank checks: `node_type_offset`, if supplied, has rank 1,
`type_per_edge` is supplied with rank 1, and `indices` has rank 0. -/
def indices_length_unreadable (indices : Tensor) (nto tpe : Option Tensor) : Bool :=
  (match nto with
   | some o => decide (o.dim = 1)
   | none => true) &&
  (match tpe with
   | some t => decide (t.dim = 1)
   | none => false) &&
  decide (indices.dim = 0)

/-! ## Reading back what was written -/

theorem Archive.read_write_same (archive : Archive) (key : String) (value : IValue) :
    (archive.write key value).read key = some value := by
  simp [Archive.write, Archive.read]

theorem Archive.read_write_ne (archive : Archive) (key key' : String) (value : IValue)
    (h : key ≠ key') : (archive.write key value).read key' = archive.read key' := by
  simp [Archive.write, Archive.read, List.find?_cons, h]

theorem read_from_archive_write_same (archive : Archive) (key : String) (value : IValue) :
    read_from_archive (archive.write key value) key = .ok value := by
  simp [read_from_archive, Archive.read_write_same]

theorem read_from_archive_write_ne (archive : Archive) (key key' : String) (value : IValue)
    (h : key ≠ key') :
    read_from_archive (archive.write key value) key' = read_from_archive archive key' := by
  simp [read_from_archive, Archive.read_write_ne _ _ _ _ h]

/-- Saving any graph into any archive and loading the result into any instance
without optional members gives the graph back. -/
theorem Load_Save_any (k : Int) (g self : CSCSamplingGraph) (archive : Archive)
    (h₁ : self.node_type_offset_ = none) (h₂ : self.type_per_edge_ = none) :
    CSCSamplingGraph.Load k self (CSCSamplingGraph.Save k g archive).2 = (g, .ok ()) := by
  obtain ⟨a, b, c, d⟩ := g
  obtain ⟨a', b', c', d'⟩ := self
  simp only at h₁ h₂
  subst h₁ h₂
  cases c <;> cases d <;>
    simp +decide [CSCSamplingGraph.Load, CSCSamplingGraph.Save, read_from_archive_write_same,
      read_from_archive_write_ne, Except.bind, IValue.toInt, IValue.toTensor, IValue.toBool]

/-! ## Construction -/

theorem init_ok_iff (indptr indices : Tensor) (nto tpe : Option Tensor) (g : CSCSamplingGraph) :
    CSCSamplingGraph.init indptr indices nto tpe = .ok g ↔
      (indptr.dim = 1 ∧ indices.dim = 1 ∧ indptr.device = indices.device) ∧
        g = { indptr_ := indptr, indices_ := indices,
              node_type_offset_ := nto, type_per_edge_ := tpe } := by
  unfold CSCSamplingGraph.init
  by_cases h₁ : indptr.dim = 1 <;> by_cases h₂ : indices.dim = 1 <;>
    by_cases h₃ : indptr.device = indices.device <;> simp [h₁, h₂, h₃, eq_comm]

theorem check_node_type_offset_ok_iff (nto : Option Tensor) :
    FromCSC.check_node_type_offset nto = .ok () ↔ ∀ t, nto = some t → t.dim = 1 := by
  cases nto with
  | none => simp [FromCSC.check_node_type_offset]
  | some t =>
    by_cases h : t.dim = 1 <;> simp [FromCSC.check_node_type_offset, h]

theorem size_zero_of_dim_one (t : Tensor) (h : t.dim = 1) :
    ∃ n, t.sizes = [n] ∧ t.size 0 = .ok n := by
  obtain ⟨sizes, dtype, device, data⟩ := t
  match sizes, h with
  | [n], _ => exact ⟨n, rfl, rfl⟩

theorem check_type_per_edge_ok_iff (indices : Tensor) (tpe : Option Tensor) :
    FromCSC.check_type_per_edge indices tpe = .ok () ↔
      ∀ t, tpe = some t → t.dim = 1 ∧ ∃ n, t.size 0 = .ok n ∧ indices.size 0 = .ok n := by
  cases tpe with
  | none => simp [FromCSC.check_type_per_edge]
  | some t =>
    by_cases h : t.dim = 1
    · obtain ⟨n, -, hn⟩ := size_zero_of_dim_one t h
      cases hm : indices.size 0 with
      | error e => simp [FromCSC.check_type_per_edge, h, hn, hm]
      | ok m =>
        by_cases hnm : n = m <;>
          simp [FromCSC.check_type_per_edge, h, hn, hm, hnm]
    · simp [FromCSC.check_type_per_edge, h]

theorem FromCSC_ok_iff (indptr indices : Tensor) (nto tpe : Option Tensor)
    (g : CSCSamplingGraph) :
    CSCSamplingGraph.FromCSC indptr indices nto tpe = .ok g ↔
      (∀ t, nto = some t → t.dim = 1) ∧
      (∀ t, tpe = some t → t.dim = 1 ∧ ∃ n, t.size 0 = .ok n ∧ indices.size 0 = .ok n) ∧
      (indptr.dim = 1 ∧ indices.dim = 1 ∧ indptr.device = indices.device) ∧
      g = { indptr_ := indptr, indices_ := indices,
            node_type_offset_ := nto, type_per_edge_ := tpe } := by
  rw [← check_node_type_offset_ok_iff, ← check_type_per_edge_ok_iff, ← init_ok_iff]
  unfold CSCSamplingGraph.FromCSC
  cases h₁ : FromCSC.check_node_type_offset nto with
  | error e => simp
  | ok u =>
    cases h₂ : FromCSC.check_type_per_edge indices tpe with
    | error e => simp
    | ok v => simp

theorem init_error_isInvalidArgument (indptr indices : Tensor) (nto tpe : Option Tensor)
    (e : Error) (h : CSCSamplingGraph.init indptr indices nto tpe = .error e) :
    e.isInvalidArgument = true := by
  unfold CSCSamplingGraph.init at h
  split_ifs at h <;> cases h <;> rfl

theorem check_node_type_offset_error (nto : Option Tensor) (e : Error)
    (h : FromCSC.check_node_type_offset nto = .error e) : e.isInvalidArgument = true := by
  cases nto with
  | none => cases h
  | some t =>
    simp only [FromCSC.check_node_type_offset] at h
    split_ifs at h
    cases h
    rfl

theorem size_error (t : Tensor) (d : Nat) (e : Error) (h : t.size d = .error e) :
    e.isInvalidArgument = true := by
  unfold Tensor.size at h
  split at h <;> cases h
  rfl

theorem check_type_per_edge_error (indices : Tensor) (tpe : Option Tensor) (e : Error)
    (h : FromCSC.check_type_per_edge indices tpe = .error e) : e.isInvalidArgument = true := by
  cases tpe with
  | none => cases h
  | some t =>
    simp only [FromCSC.check_type_per_edge] at h
    split_ifs at h
    · cases h; rfl
    · split at h
      · next e' he' => cases h; exact size_error _ _ _ he'
      · split at h
        · next e' he' => cases h; exact size_error _ _ _ he'
        · split_ifs at h
          cases h
          rfl

theorem FromCSC_error_isInvalidArgument (indptr indices : Tensor) (nto tpe : Option Tensor)
    (e : Error) (h : CSCSamplingGraph.FromCSC indptr indices nto tpe = .error e) :
    e.isInvalidArgument = true := by
  unfold CSCSamplingGraph.FromCSC at h
  split at h
  · next e' he' => cases h; exact check_node_type_offset_error _ _ he'
  · split at h
    · next e' he' => cases h; exact check_type_per_edge_error _ _ _ he'
    · exact init_error_isInvalidArgument _ _ _ _ _ h

/-! ## Claims on construction and on the round trip -/

/-- C1: for every graph `FromCSC` returns, `Save` into an empty archive followed
by `Load` of that archive into a fresh instance succeeds, and the loaded
instance has the same `indptr` and `indices`, and each optional member present
exactly when the original's is, with the same value. -/
theorem Save_Load_round_trip (k : Int) (indptr indices : Tensor) (nto tpe : Option Tensor)
    (g : CSCSamplingGraph) (h : CSCSamplingGraph.FromCSC indptr indices nto tpe = .ok g) :
    ∃ g', CSCSamplingGraph.Load k CSCSamplingGraph.fresh (CSCSamplingGraph.Save k g []).2
        = (g', .ok ()) ∧
      g'.indptr_ = indptr ∧ g'.indices_ = indices ∧
      g'.indptr_ = g.indptr_ ∧ g'.indices_ = g.indices_ ∧
      g'.node_type_offset_.isSome = g.node_type_offset_.isSome ∧
      g'.node_type_offset_ = g.node_type_offset_ ∧
      g'.type_per_edge_.isSome = g.type_per_edge_.isSome ∧
      g'.type_per_edge_ = g.type_per_edge_ := by
  refine ⟨g, Load_Save_any k g CSCSamplingGraph.fresh [] rfl rfl, ?_⟩
  obtain ⟨-, -, -, rfl⟩ := (FromCSC_ok_iff indptr indices nto tpe g).1 h
  simp

theorem Save_Load_round_trip_witness :
    ∃ g', CSCSamplingGraph.Load 7 CSCSamplingGraph.fresh
        (CSCSamplingGraph.Save 7 sample_graph []).2 = (g', .ok ()) ∧
      g'.indptr_ = vec [0, 2, 3, 3] ∧ g'.indices_ = vec [1, 2, 0] ∧
      g'.indptr_ = sample_graph.indptr_ ∧ g'.indices_ = sample_graph.indices_ ∧
      g'.node_type_offset_.isSome = sample_graph.node_type_offset_.isSome ∧
      g'.node_type_offset_ = sample_graph.node_type_offset_ ∧
      g'.type_per_edge_.isSome = sample_graph.type_per_edge_.isSome ∧
      g'.type_per_edge_ = sample_graph.type_per_edge_ :=
  Save_Load_round_trip 7 (vec [0, 2, 3, 3]) (vec [1, 2, 0]) (some (vec [0, 2, 3])) none
    sample_graph (by decide)

/-- C2: `FromCSC` fails exactly when `indptr` or `indices` has a rank other
than 1, or they are on different devices, or a supplied `node_type_offset` or
`type_per_edge` has a rank other than 1, or a supplied `type_per_edge` has a
length (`size(0)`) other than that of `indices`; a failure is an argument
error, and in every other case the call returns a graph. -/
theorem FromCSC_fails_iff (indptr indices : Tensor) (nto tpe : Option Tensor) :
    ((∃ e, CSCSamplingGraph.FromCSC indptr indices nto tpe = .error e) ↔
      (indptr.dim ≠ 1 ∨ indices.dim ≠ 1 ∨ indptr.device ≠ indices.device ∨
        (∃ t, nto = some t ∧ t.dim ≠ 1) ∨ (∃ t, tpe = some t ∧ t.dim ≠ 1) ∨
        (∃ t, tpe = some t ∧ t.size 0 ≠ indices.size 0))) ∧
    (∀ e, CSCSamplingGraph.FromCSC indptr indices nto tpe = .error e →
      e.isInvalidArgument = true) ∧
    ((∃ g, CSCSamplingGraph.FromCSC indptr indices nto tpe = .ok g) ↔
      ¬ (indptr.dim ≠ 1 ∨ indices.dim ≠ 1 ∨ indptr.device ≠ indices.device ∨
        (∃ t, nto = some t ∧ t.dim ≠ 1) ∨ (∃ t, tpe = some t ∧ t.dim ≠ 1) ∨
        (∃ t, tpe = some t ∧ t.size 0 ≠ indices.size 0))) := by
  have key : (∃ g, CSCSamplingGraph.FromCSC indptr indices nto tpe = .ok g) ↔
      ¬ (indptr.dim ≠ 1 ∨ indices.dim ≠ 1 ∨ indptr.device ≠ indices.device ∨
        (∃ t, nto = some t ∧ t.dim ≠ 1) ∨ (∃ t, tpe = some t ∧ t.dim ≠ 1) ∨
        (∃ t, tpe = some t ∧ t.size 0 ≠ indices.size 0)) := by
    constructor
    · rintro ⟨g, hg⟩
      obtain ⟨h₁, h₂, ⟨h₃, h₄, h₅⟩, -⟩ := (FromCSC_ok_iff indptr indices nto tpe g).1 hg
      rintro (h | h | h | ⟨t, ht, h⟩ | ⟨t, ht, h⟩ | ⟨t, ht, h⟩)
      · exact h h₃
      · exact h h₄
      · exact h h₅
      · exact h (h₁ t ht)
      · exact h (h₂ t ht).1
      · obtain ⟨-, n, hn, hm⟩ := h₂ t ht
        exact h (hn.trans hm.symm)
    · intro h
      simp only [not_or, not_exists, not_and, not_not] at h
      obtain ⟨h₃, h₄, h₅, h₁, h₂, h₆⟩ := h
      refine ⟨_, (FromCSC_ok_iff indptr indices nto tpe _).2 ⟨h₁, ?_, ⟨h₃, h₄, h₅⟩, rfl⟩⟩
      intro t ht
      obtain ⟨n, -, hn⟩ := size_zero_of_dim_one t (h₂ t ht)
      exact ⟨h₂ t ht, n, hn, (h₆ t ht) ▸ hn⟩
  refine ⟨?_, ?_, key⟩
  · rw [← not_iff_not, not_exists, ← key]
    cases h : CSCSamplingGraph.FromCSC indptr indices nto tpe <;> simp
  · exact fun e he => FromCSC_error_isInvalidArgument indptr indices nto tpe e he

/-- C3, as the code has it: for `indptr` and `indices` of rank 1 on one device,
`FromCSC` without optional members returns a graph with
`num_nodes = length(indptr) - 1` and `num_edges = length(indices)`. -/
theorem FromCSC_num_nodes_num_edges (indptr indices : Tensor)
    (h₁ : indptr.dim = 1) (h₂ : indices.dim = 1) (h₃ : indptr.device = indices.device) :
    ∃ g, CSCSamplingGraph.FromCSC indptr indices none none = .ok g ∧
      ∃ n m, indptr.sizes = [n] ∧ indices.sizes = [m] ∧
        g.num_nodes = .ok ((n : Int) - 1) ∧ g.num_edges = .ok (m : Int) := by
  obtain ⟨n, hn, hn'⟩ := size_zero_of_dim_one indptr h₁
  obtain ⟨m, hm, hm'⟩ := size_zero_of_dim_one indices h₂
  refine ⟨_, (FromCSC_ok_iff indptr indices none none _).2
    ⟨by simp, by simp, ⟨h₁, h₂, h₃⟩, rfl⟩, n, m, hn, hm, ?_, ?_⟩
  · simp [CSCSamplingGraph.num_nodes, hn', Except.map]
  · simp [CSCSamplingGraph.num_edges, hm', Except.map]

theorem FromCSC_num_nodes_num_edges_witness :
    ∃ g, CSCSamplingGraph.FromCSC (vec [0, 2, 3, 3]) (vec [1, 2, 0]) none none = .ok g ∧
      ∃ n m, (vec [0, 2, 3, 3]).sizes = [n] ∧ (vec [1, 2, 0]).sizes = [m] ∧
        g.num_nodes = .ok ((n : Int) - 1) ∧ g.num_edges = .ok (m : Int) :=
  FromCSC_num_nodes_num_edges (vec [0, 2, 3, 3]) (vec [1, 2, 0])
    (by decide) (by decide) (by decide)

/-- C3 as stated fails: `indptr = [0, 5]` and `indices = []` are of rank 1 on
one device, `FromCSC` returns a graph for them, and its `num_edges` is 0 while
the last element of its `indptr` is 5. -/
theorem FromCSC_num_edges_last_counterexample :
    (vec [0, 5]).dim = 1 ∧ (vec []).dim = 1 ∧ (vec [0, 5]).device = (vec []).device ∧
    CSCSamplingGraph.FromCSC (vec [0, 5]) (vec []) none none = .ok dangling_graph ∧
    dangling_graph.num_edges = .ok 0 ∧
    dangling_graph.indptr_.last = some 5 ∧
    ¬ (dangling_graph.num_edges = .ok 5) := by
  decide

/-- C9: when `FromCSC` returns a graph, its four members are the four
arguments: `indptr` and `indices` with their shape, element type, device and
contents, and each optional member present exactly when it was supplied, with
that value. -/
theorem FromCSC_fields (indptr indices : Tensor) (nto tpe : Option Tensor)
    (g : CSCSamplingGraph) (h : CSCSamplingGraph.FromCSC indptr indices nto tpe = .ok g) :
    g.indptr_ = indptr ∧ g.indices_ = indices ∧
    g.node_type_offset_ = nto ∧ g.type_per_edge_ = tpe ∧
    (g.indptr_.dim = indptr.dim ∧ g.indptr_.sizes = indptr.sizes ∧
      g.indptr_.dtype = indptr.dtype ∧ g.indptr_.device = indptr.device ∧
      g.indptr_.data = indptr.data) ∧
    (g.indices_.dim = indices.dim ∧ g.indices_.sizes = indices.sizes ∧
      g.indices_.dtype = indices.dtype ∧ g.indices_.device = indices.device ∧
      g.indices_.data = indices.data) ∧
    (g.node_type_offset_.isSome = nto.isSome) ∧ (g.type_per_edge_.isSome = tpe.isSome) := by
  obtain ⟨-, -, -, rfl⟩ := (FromCSC_ok_iff indptr indices nto tpe g).1 h
  simp

theorem FromCSC_fields_witness :
    sample_graph.indptr_ = vec [0, 2, 3, 3] ∧ sample_graph.indices_ = vec [1, 2, 0] ∧
    sample_graph.node_type_offset_ = some (vec [0, 2, 3]) ∧
    sample_graph.type_per_edge_ = none ∧
    (sample_graph.indptr_.dim = (vec [0, 2, 3, 3]).dim ∧
      sample_graph.indptr_.sizes = (vec [0, 2, 3, 3]).sizes ∧
      sample_graph.indptr_.dtype = (vec [0, 2, 3, 3]).dtype ∧
      sample_graph.indptr_.device = (vec [0, 2, 3, 3]).device ∧
      sample_graph.indptr_.data = (vec [0, 2, 3, 3]).data) ∧
    (sample_graph.indices_.dim = (vec [1, 2, 0]).dim ∧
      sample_graph.indices_.sizes = (vec [1, 2, 0]).sizes ∧
      sample_graph.indices_.dtype = (vec [1, 2, 0]).dtype ∧
      sample_graph.indices_.device = (vec [1, 2, 0]).device ∧
      sample_graph.indices_.data = (vec [1, 2, 0]).data) ∧
    (sample_graph.node_type_offset_.isSome = (some (vec [0, 2, 3])).isSome) ∧
    (sample_graph.type_per_edge_.isSome = (none : Option Tensor).isSome) :=
  FromCSC_fields (vec [0, 2, 3, 3]) (vec [1, 2, 0]) (some (vec [0, 2, 3])) none
    sample_graph (by decide)

/-! ## Claims on Save -/

/-- C5: `Save` only appends: the archive after `Save` is the archive before it
followed by exactly the fields of the layout, in the layout's order; and a graph
without `type_per_edge` writes `has_type_per_edge = false` last and no
`type_per_edge` field. -/
theorem Save_appends_layout (k : Int) (g : CSCSamplingGraph) (archive : Archive) :
    (CSCSamplingGraph.Save k g archive).2 = archive ++ layout_fields k g ∧
    (∃ front, (CSCSamplingGraph.Save k ({ g with type_per_edge_ := none }) archive).2
        = archive ++ front ++ [("CSCSamplingGraph/has_type_per_edge", .bool false)] ∧
      ∀ p ∈ front, p.1 ≠ "CSCSamplingGraph/type_per_edge") := by
  obtain ⟨a, b, c, d⟩ := g
  constructor
  · cases c <;> cases d <;> simp [CSCSamplingGraph.Save, layout_fields, Archive.write]
  · cases c with
    | none =>
      exact ⟨[("CSCSamplingGraph/magic_num", .int k), ("CSCSamplingGraph/indptr", .tensor a),
          ("CSCSamplingGraph/indices", .tensor b),
          ("CSCSamplingGraph/has_node_type_offset", .bool false)],
        by simp [CSCSamplingGraph.Save, Archive.write], by simp +decide⟩
    | some t =>
      exact ⟨[("CSCSamplingGraph/magic_num", .int k), ("CSCSamplingGraph/indptr", .tensor a),
          ("CSCSamplingGraph/indices", .tensor b),
          ("CSCSamplingGraph/has_node_type_offset", .bool true),
          ("CSCSamplingGraph/node_type_offset", .tensor t)],
        by simp [CSCSamplingGraph.Save, Archive.write], by simp +decide⟩

/-- C10: `Save` leaves the four members of the graph as they were, what it
writes depends on those members alone and not on the archive it writes to, and
a second `Save` of the graph it returns into an equal archive gives the same
archive. -/
theorem Save_pure (k : Int) (g : CSCSamplingGraph) (archive : Archive) :
    (CSCSamplingGraph.Save k g archive).1 = g ∧
    (CSCSamplingGraph.Save k g archive).1.indptr_ = g.indptr_ ∧
    (CSCSamplingGraph.Save k g archive).1.indices_ = g.indices_ ∧
    (CSCSamplingGraph.Save k g archive).1.node_type_offset_ = g.node_type_offset_ ∧
    (CSCSamplingGraph.Save k g archive).1.type_per_edge_ = g.type_per_edge_ ∧
    (CSCSamplingGraph.Save k g archive).2 = archive ++ (CSCSamplingGraph.Save k g []).2 ∧
    (CSCSamplingGraph.Save k (CSCSamplingGraph.Save k g archive).1 archive).2
      = (CSCSamplingGraph.Save k g archive).2 := by
  have h : (CSCSamplingGraph.Save k g archive).1 = g := rfl
  refine ⟨h, by rw [h], by rw [h], by rw [h], by rw [h], ?_, by rw [h]⟩
  obtain ⟨a, b, c, d⟩ := g
  cases c <;> cases d <;> simp [CSCSamplingGraph.Save, Archive.write]

/-! ## Claims on Load -/

theorem read_int_cases (archive : Archive) (key : String) :
    (∃ n, archive.read key = some (.int n) ∧
      (read_from_archive archive key).bind IValue.toInt = .ok n) ∨
    (archive.has_int key = false ∧
      ∃ e, (read_from_archive archive key).bind IValue.toInt = .error e) := by
  unfold read_from_archive Archive.has_int
  cases h : archive.read key with
  | none => simp [Except.bind]
  | some v => cases v <;> simp [Except.bind, IValue.toInt]

theorem read_bool_cases (archive : Archive) (key : String) :
    (∃ b, archive.read key = some (.bool b) ∧
      (read_from_archive archive key).bind IValue.toBool = .ok b) ∨
    (archive.has_bool key = false ∧
      ∃ e, (read_from_archive archive key).bind IValue.toBool = .error e) := by
  unfold read_from_archive Archive.has_bool
  cases h : archive.read key with
  | none => simp [Except.bind]
  | some v => cases v <;> simp [Except.bind, IValue.toBool]

theorem read_tensor_cases (archive : Archive) (key : String) :
    (∃ t, archive.read key = some (.tensor t) ∧
      (read_from_archive archive key).bind IValue.toTensor = .ok t) ∨
    (archive.has_tensor key = false ∧
      ∃ e, (read_from_archive archive key).bind IValue.toTensor = .error e) := by
  unfold read_from_archive Archive.has_tensor
  cases h : archive.read key with
  | none => simp [Except.bind]
  | some v => cases v <;> simp [Except.bind, IValue.toTensor]

/-- C4: when the archive's `CSCSamplingGraph/magic_num` field holds an integer
other than the expected constant, `Load` fails with the magic-number mismatch
error, whatever the target instance and the rest of the archive are. -/
theorem Load_magic_mismatch (k : Int) (self : CSCSamplingGraph) (archive : Archive) (n : Int)
    (h : archive.read "CSCSamplingGraph/magic_num" = some (.int n)) (hne : n ≠ k) :
    (CSCSamplingGraph.Load k self archive).2 = .error magic_mismatch := by
  simp [CSCSamplingGraph.Load, read_from_archive, h, Except.bind, IValue.toInt, hne]

theorem Load_magic_mismatch_witness :
    (CSCSamplingGraph.Load 7 sample_graph [("CSCSamplingGraph/magic_num", .int 8)]).2
      = .error magic_mismatch :=
  Load_magic_mismatch 7 sample_graph [("CSCSamplingGraph/magic_num", .int 8)] 8
    (by decide) (by decide)

/-- C7: `Load` fails exactly when `magic_num` is absent, not an integer or not
the expected constant, or `indptr` or `indices` is absent or not a tensor, or a
presence flag is absent or not a boolean, or a presence flag is true and its
member is absent or not a tensor. -/
theorem Load_fails_iff (k : Int) (self : CSCSamplingGraph) (archive : Archive) :
    (∃ e, (CSCSamplingGraph.Load k self archive).2 = .error e) ↔
      ((archive.read "CSCSamplingGraph/magic_num" = none ∨
          archive.has_int "CSCSamplingGraph/magic_num" = false ∨
          ∃ n, archive.read "CSCSamplingGraph/magic_num" = some (.int n) ∧ n ≠ k) ∨
        (archive.read "CSCSamplingGraph/indptr" = none ∨
          archive.has_tensor "CSCSamplingGraph/indptr" = false) ∨
        (archive.read "CSCSamplingGraph/indices" = none ∨
          archive.has_tensor "CSCSamplingGraph/indices" = false) ∨
        (archive.read "CSCSamplingGraph/has_node_type_offset" = none ∨
          archive.has_bool "CSCSamplingGraph/has_node_type_offset" = false) ∨
        (archive.read "CSCSamplingGraph/has_node_type_offset" = some (.bool true) ∧
          (archive.read "CSCSamplingGraph/node_type_offset" = none ∨
            archive.has_tensor "CSCSamplingGraph/node_type_offset" = false)) ∨
        (archive.read "CSCSamplingGraph/has_type_per_edge" = none ∨
          archive.has_bool "CSCSamplingGraph/has_type_per_edge" = false) ∨
        (archive.read "CSCSamplingGraph/has_type_per_edge" = some (.bool true) ∧
          (archive.read "CSCSamplingGraph/type_per_edge" = none ∨
            archive.has_tensor "CSCSamplingGraph/type_per_edge" = false))) := by
  have is_int : ∀ key n, archive.read key = some (.int n) → archive.has_int key = true := by
    intro key n h; simp [Archive.has_int, h]
  have is_bool : ∀ key b, archive.read key = some (.bool b) → archive.has_bool key = true := by
    intro key b h; simp [Archive.has_bool, h]
  have is_tensor : ∀ key t, archive.read key = some (.tensor t) →
      archive.has_tensor key = true := by
    intro key t h; simp [Archive.has_tensor, h]
  unfold CSCSamplingGraph.Load
  rcases read_int_cases archive "CSCSamplingGraph/magic_num" with ⟨n, h₁, h₁'⟩ | ⟨h₁, e₁, h₁'⟩
  swap
  · simp [h₁, h₁']
  by_cases hk : n = k
  swap
  · simp [h₁, h₁', hk]
  subst hk
  rcases read_tensor_cases archive "CSCSamplingGraph/indptr" with ⟨ip, h₂, h₂'⟩ | ⟨h₂, e₂, h₂'⟩
  swap
  · simp [h₁', h₂, h₂']
  rcases read_tensor_cases archive "CSCSamplingGraph/indices" with ⟨ix, h₃, h₃'⟩ | ⟨h₃, e₃, h₃'⟩
  swap
  · simp [h₁', h₂', h₃, h₃']
  rcases read_bool_cases archive "CSCSamplingGraph/has_node_type_offset" with
    ⟨bn, h₄, h₄'⟩ | ⟨h₄, e₄, h₄'⟩
  swap
  · simp [h₁', h₂', h₃', h₄, h₄']
  rcases read_bool_cases archive "CSCSamplingGraph/has_type_per_edge" with
    ⟨bt, h₆, h₆'⟩ | ⟨h₆, e₆, h₆'⟩ <;>
  rcases read_tensor_cases archive "CSCSamplingGraph/node_type_offset" with
    ⟨tn, h₅, h₅'⟩ | ⟨h₅, e₅, h₅'⟩ <;>
  rcases read_tensor_cases archive "CSCSamplingGraph/type_per_edge" with
    ⟨tt, h₇, h₇'⟩ | ⟨h₇, e₇, h₇'⟩ <;>
  cases bn <;> (try cases bt) <;>
  simp [h₁, h₁', h₂, h₂', h₃, h₃', h₄, h₄', h₅, h₅', h₆, h₆', h₇, h₇',
    is_int _ _ h₁, is_tensor _ _ h₂, is_tensor _ _ h₃, is_bool _ _ h₄] <;>
  simp_all [Archive.has_bool, Archive.has_tensor]

/-- What a successful `Load` leaves in the instance: `indptr` and `indices` are
the archive's, and each optional member is the archive's when its flag is true
and the instance's previous one when its flag is false. -/
theorem Load_ok_fields (k : Int) (self g : CSCSamplingGraph) (archive : Archive)
    (h : CSCSamplingGraph.Load k self archive = (g, .ok ())) :
    archive.read "CSCSamplingGraph/magic_num" = some (.int k) ∧
    archive.read "CSCSamplingGraph/indptr" = some (.tensor g.indptr_) ∧
    archive.read "CSCSamplingGraph/indices" = some (.tensor g.indices_) ∧
    (∃ b, archive.read "CSCSamplingGraph/has_node_type_offset" = some (.bool b) ∧
      (b = true → ∃ t, archive.read "CSCSamplingGraph/node_type_offset" = some (.tensor t) ∧
        g.node_type_offset_ = some t) ∧
      (b = false → g.node_type_offset_ = self.node_type_offset_)) ∧
    (∃ b, archive.read "CSCSamplingGraph/has_type_per_edge" = some (.bool b) ∧
      (b = true → ∃ t, archive.read "CSCSamplingGraph/type_per_edge" = some (.tensor t) ∧
        g.type_per_edge_ = some t) ∧
      (b = false → g.type_per_edge_ = self.type_per_edge_)) := by
  unfold CSCSamplingGraph.Load at h
  rcases read_int_cases archive "CSCSamplingGraph/magic_num" with ⟨n, h₁, h₁'⟩ | ⟨h₁, e₁, h₁'⟩
  swap
  · simp [h₁'] at h
  by_cases hk : n = k
  swap
  · simp [h₁', hk] at h
  subst hk
  rcases read_tensor_cases archive "CSCSamplingGraph/indptr" with ⟨ip, h₂, h₂'⟩ | ⟨h₂, e₂, h₂'⟩
  swap
  · simp [h₁', h₂'] at h
  rcases read_tensor_cases archive "CSCSamplingGraph/indices" with ⟨ix, h₃, h₃'⟩ | ⟨h₃, e₃, h₃'⟩
  swap
  · simp [h₁', h₂', h₃'] at h
  rcases read_bool_cases archive "CSCSamplingGraph/has_node_type_offset" with
    ⟨bn, h₄, h₄'⟩ | ⟨h₄, e₄, h₄'⟩
  swap
  · simp [h₁', h₂', h₃', h₄'] at h
  rcases read_bool_cases archive "CSCSamplingGraph/has_type_per_edge" with
    ⟨bt, h₆, h₆'⟩ | ⟨h₆, e₆, h₆'⟩ <;>
  rcases read_tensor_cases archive "CSCSamplingGraph/node_type_offset" with
    ⟨tn, h₅, h₅'⟩ | ⟨h₅, e₅, h₅'⟩ <;>
  rcases read_tensor_cases archive "CSCSamplingGraph/type_per_edge" with
    ⟨tt, h₇, h₇'⟩ | ⟨h₇, e₇, h₇'⟩ <;>
  cases bn <;> (try cases bt) <;>
  simp [h₁', h₂', h₃', h₄', h₅', h₆', h₇'] at h <;>
  subst h <;>
  simp [h₁, h₂, h₃, h₄, h₅, h₆, h₇]

/-- C8: when `Load` into a fresh instance succeeds, each optional member of the
result is decided by its flag: with the flag false the member is unset, whether
or not the archive holds a field for it, and with the flag true the member is
that field. -/
theorem Load_fresh_optional_by_flag (k : Int) (g : CSCSamplingGraph) (archive : Archive)
    (h : CSCSamplingGraph.Load k CSCSamplingGraph.fresh archive = (g, .ok ())) :
    ((archive.read "CSCSamplingGraph/has_type_per_edge" = some (.bool false) ∧
        g.type_per_edge_ = none) ∨
      (archive.read "CSCSamplingGraph/has_type_per_edge" = some (.bool true) ∧
        ∃ t, archive.read "CSCSamplingGraph/type_per_edge" = some (.tensor t) ∧
          g.type_per_edge_ = some t)) ∧
    ((archive.read "CSCSamplingGraph/has_node_type_offset" = some (.bool false) ∧
        g.node_type_offset_ = none) ∨
      (archive.read "CSCSamplingGraph/has_node_type_offset" = some (.bool true) ∧
        ∃ t, archive.read "CSCSamplingGraph/node_type_offset" = some (.tensor t) ∧
          g.node_type_offset_ = some t)) := by
  obtain ⟨-, -, -, ⟨bn, hn, hn₁, hn₀⟩, ⟨bt, ht, ht₁, ht₀⟩⟩ :=
    Load_ok_fields k CSCSamplingGraph.fresh g archive h
  constructor
  · cases bt with
    | false => exact Or.inl ⟨ht, ht₀ rfl⟩
    | true => exact Or.inr ⟨ht, ht₁ rfl⟩
  · cases bn with
    | false => exact Or.inl ⟨hn, hn₀ rfl⟩
    | true => exact Or.inr ⟨hn, hn₁ rfl⟩

theorem Load_fresh_optional_by_flag_witness :
    ((stray_archive.read "CSCSamplingGraph/has_type_per_edge" = some (.bool false) ∧
        plain_graph.type_per_edge_ = none) ∨
      (stray_archive.read "CSCSamplingGraph/has_type_per_edge" = some (.bool true) ∧
        ∃ t, stray_archive.read "CSCSamplingGraph/type_per_edge" = some (.tensor t) ∧
          plain_graph.type_per_edge_ = some t)) ∧
    ((stray_archive.read "CSCSamplingGraph/has_node_type_offset" = some (.bool false) ∧
        plain_graph.node_type_offset_ = none) ∨
      (stray_archive.read "CSCSamplingGraph/has_node_type_offset" = some (.bool true) ∧
        ∃ t, stray_archive.read "CSCSamplingGraph/node_type_offset" = some (.tensor t) ∧
          plain_graph.node_type_offset_ = some t)) :=
  Load_fresh_optional_by_flag 7 plain_graph stray_archive (by decide)

/-- C6 fails on the code: `Load` of the archive saved from a graph without
optional members into an instance that holds both succeeds, both flags of the
archive are false, and the instance still holds its previous `node_type_offset`
and `type_per_edge` next to the archive's `indptr` and `indices`. -/
theorem Load_keeps_stale_optional_members :
    (CSCSamplingGraph.Save 7 plain_graph []).2.read "CSCSamplingGraph/has_node_type_offset"
      = some (.bool false) ∧
    (CSCSamplingGraph.Save 7 plain_graph []).2.read "CSCSamplingGraph/has_type_per_edge"
      = some (.bool false) ∧
    (CSCSamplingGraph.Load 7 typed_graph (CSCSamplingGraph.Save 7 plain_graph []).2).2
      = .ok () ∧
    (CSCSamplingGraph.Load 7 typed_graph (CSCSamplingGraph.Save 7 plain_graph []).2).1.indptr_
      = plain_graph.indptr_ ∧
    (CSCSamplingGraph.Load 7 typed_graph (CSCSamplingGraph.Save 7 plain_graph []).2).1.indices_
      = plain_graph.indices_ ∧
    (CSCSamplingGraph.Load 7 typed_graph
        (CSCSamplingGraph.Save 7 plain_graph []).2).1.node_type_offset_
      = some (vec [0, 1]) ∧
    (CSCSamplingGraph.Load 7 typed_graph
        (CSCSamplingGraph.Save 7 plain_graph []).2).1.type_per_edge_
      = some (vec [4]) := by
  decide

/-! ## Claims on direct construction and on the invariants -/

/-- C11: the constructor succeeds exactly when `indptr` and `indices` have rank
1 and are on one device, whatever `node_type_offset` and `type_per_edge` are;
it accepts a `type_per_edge` of another length than `indices` and a
`node_type_offset` of rank 2, both of which `FromCSC` rejects. -/
theorem init_bypasses_optional_validation (indptr indices : Tensor)
    (nto tpe : Option Tensor) :
    ((∃ g, CSCSamplingGraph.init indptr indices nto tpe = .ok g) ↔
      (indptr.dim = 1 ∧ indices.dim = 1 ∧ indptr.device = indices.device)) ∧
    (∀ nto' tpe' : Option Tensor,
      (∃ g, CSCSamplingGraph.init indptr indices nto tpe = .ok g) ↔
        (∃ g, CSCSamplingGraph.init indptr indices nto' tpe' = .ok g)) ∧
    ((∃ g, CSCSamplingGraph.init (vec [0, 2, 3, 3]) (vec [1, 2, 0]) none (some (vec [0]))
        = .ok g) ∧
      (∃ e, CSCSamplingGraph.FromCSC (vec [0, 2, 3, 3]) (vec [1, 2, 0]) none (some (vec [0]))
        = .error e)) ∧
    ((∃ g, CSCSamplingGraph.init (vec [0, 2, 3, 3]) (vec [1, 2, 0]) (some grid) none
        = .ok g) ∧
      (∃ e, CSCSamplingGraph.FromCSC (vec [0, 2, 3, 3]) (vec [1, 2, 0]) (some grid) none
        = .error e)) := by
  have key : ∀ (a b : Tensor) (n t : Option Tensor),
      (∃ g, CSCSamplingGraph.init a b n t = .ok g) ↔
        (a.dim = 1 ∧ b.dim = 1 ∧ a.device = b.device) := by
    intro a b n t
    constructor
    · rintro ⟨g, hg⟩
      exact ((init_ok_iff a b n t g).1 hg).1
    · intro h
      exact ⟨_, (init_ok_iff a b n t _).2 ⟨h, rfl⟩⟩
  refine ⟨key _ _ nto tpe, fun n t => (key _ _ nto tpe).trans (key _ _ n t).symm, ?_, ?_⟩
  · exact ⟨(key _ _ _ _).2 (by decide),
      ⟨Error.check_failed "type_per_edge.value().size(0) == indices.size(0)" "", by decide⟩⟩
  · exact ⟨(key _ _ _ _).2 (by decide),
      ⟨Error.check_failed "offset.dim() == 1" "", by decide⟩⟩

/-- C12, as the code has it: every graph `FromCSC` returns has `indptr` and
`indices` on one storage location and, when `type_per_edge` is present, a
`type_per_edge` of the same length as `indices`. -/
theorem FromCSC_enforced_invariants (indptr indices : Tensor) (nto tpe : Option Tensor)
    (g : CSCSamplingGraph) (h : CSCSamplingGraph.FromCSC indptr indices nto tpe = .ok g) :
    g.indptr_.device = g.indices_.device ∧ g.type_per_edge_aligned = true := by
  obtain ⟨-, h₂, ⟨-, -, h₅⟩, rfl⟩ := (FromCSC_ok_iff indptr indices nto tpe g).1 h
  refine ⟨h₅, ?_⟩
  cases tpe with
  | none => rfl
  | some t =>
    obtain ⟨-, n, hn, hm⟩ := h₂ t rfl
    simp [CSCSamplingGraph.type_per_edge_aligned, hn, hm]

theorem FromCSC_enforced_invariants_witness :
    unchecked_graph.indptr_.device = unchecked_graph.indices_.device ∧
      unchecked_graph.type_per_edge_aligned = true :=
  FromCSC_enforced_invariants (vec []) (vec [7]) (some (cuda_vec [3, 1]))
    (some (cuda_vec [0])) unchecked_graph (by decide)

/-- C12 as stated fails: `FromCSC` returns a graph whose `indptr` is empty,
whose `indices` has one element while `indptr` has no last element, whose
optional members are on another device than `indptr`, and whose
`node_type_offset` starts at 3 and decreases. -/
theorem FromCSC_invariants_counterexample :
    CSCSamplingGraph.FromCSC (vec []) (vec [7]) (some (cuda_vec [3, 1]))
      (some (cuda_vec [0])) = .ok unchecked_graph ∧
    unchecked_graph.indptr_nonempty = false ∧
    unchecked_graph.indices_length_is_last_indptr = false ∧
    unchecked_graph.one_storage_location = false ∧
    unchecked_graph.node_type_offset_monotonic = false ∧
    unchecked_graph.data_model_invariants = false := by
  decide

/-! ## Claims on what Load leaves behind -/

theorem FromCSC_succeeds_iff (indptr indices : Tensor) (nto tpe : Option Tensor) :
    (∃ g, CSCSamplingGraph.FromCSC indptr indices nto tpe = .ok g) ↔
      (indptr.dim = 1 ∧ indices.dim = 1 ∧ indptr.device = indices.device ∧
        (∀ t, nto = some t → t.dim = 1) ∧
        (∀ t, tpe = some t → t.dim = 1 ∧ t.size 0 = indices.size 0)) := by
  constructor
  · rintro ⟨g, hg⟩
    obtain ⟨h₁, h₂, ⟨h₃, h₄, h₅⟩, -⟩ := (FromCSC_ok_iff indptr indices nto tpe g).1 hg
    refine ⟨h₃, h₄, h₅, h₁, fun t ht => ?_⟩
    obtain ⟨hd, n, hn, hm⟩ := h₂ t ht
    exact ⟨hd, hn.trans hm.symm⟩
  · rintro ⟨h₃, h₄, h₅, h₁, h₂⟩
    refine ⟨_, (FromCSC_ok_iff indptr indices nto tpe _).2 ⟨h₁, fun t ht => ?_, ⟨h₃, h₄, h₅⟩, rfl⟩⟩
    obtain ⟨hd, hs⟩ := h₂ t ht
    obtain ⟨n, -, hn⟩ := size_zero_of_dim_one t hd
    exact ⟨hd, n, hn, hs ▸ hn⟩

/-- C13, as the code has it: when `Load` into a fresh instance succeeds, the
instance holds the archive's tensors as they are stored, and they pass the
checks of construction (`FromCSC` on them succeeds) exactly when the stored
tensors satisfy those checks; `Load` checks none of them itself. -/
theorem Load_fields_unvalidated (k : Int) (g : CSCSamplingGraph) (archive : Archive)
    (h : CSCSamplingGraph.Load k CSCSamplingGraph.fresh archive = (g, .ok ())) :
    ∃ ip ix, archive.read "CSCSamplingGraph/indptr" = some (.tensor ip) ∧
      archive.read "CSCSamplingGraph/indices" = some (.tensor ix) ∧
      g.indptr_ = ip ∧ g.indices_ = ix ∧
      g.node_type_offset_ = archive.flagged_tensor "CSCSamplingGraph/has_node_type_offset"
        "CSCSamplingGraph/node_type_offset" ∧
      g.type_per_edge_ = archive.flagged_tensor "CSCSamplingGraph/has_type_per_edge"
        "CSCSamplingGraph/type_per_edge" ∧
      ((∃ g', CSCSamplingGraph.FromCSC g.indptr_ g.indices_ g.node_type_offset_
            g.type_per_edge_ = .ok g') ↔
        (ip.dim = 1 ∧ ix.dim = 1 ∧ ip.device = ix.device ∧
          (∀ t, archive.flagged_tensor "CSCSamplingGraph/has_node_type_offset"
            "CSCSamplingGraph/node_type_offset" = some t → t.dim = 1) ∧
          (∀ t, archive.flagged_tensor "CSCSamplingGraph/has_type_per_edge"
            "CSCSamplingGraph/type_per_edge" = some t → t.dim = 1 ∧ t.size 0 = ix.size 0))) := by
  obtain ⟨-, hip, hix, ⟨bn, hn, hn₁, hn₀⟩, ⟨bt, ht, ht₁, ht₀⟩⟩ :=
    Load_ok_fields k CSCSamplingGraph.fresh g archive h
  have en : g.node_type_offset_ = archive.flagged_tensor
      "CSCSamplingGraph/has_node_type_offset" "CSCSamplingGraph/node_type_offset" := by
    cases bn with
    | false => simp [Archive.flagged_tensor, hn, hn₀ rfl, CSCSamplingGraph.fresh]
    | true =>
      obtain ⟨t, ht', hg⟩ := hn₁ rfl
      simp [Archive.flagged_tensor, hn, ht', hg]
  have et : g.type_per_edge_ = archive.flagged_tensor
      "CSCSamplingGraph/has_type_per_edge" "CSCSamplingGraph/type_per_edge" := by
    cases bt with
    | false => simp [Archive.flagged_tensor, ht, ht₀ rfl, CSCSamplingGraph.fresh]
    | true =>
      obtain ⟨t, ht', hg⟩ := ht₁ rfl
      simp [Archive.flagged_tensor, ht, ht', hg]
  refine ⟨g.indptr_, g.indices_, hip, hix, rfl, rfl, en, et, ?_⟩
  rw [FromCSC_succeeds_iff, en, et]

theorem Load_fields_unvalidated_witness :
    ∃ ip ix, stray_archive.read "CSCSamplingGraph/indptr" = some (.tensor ip) ∧
      stray_archive.read "CSCSamplingGraph/indices" = some (.tensor ix) ∧
      plain_graph.indptr_ = ip ∧ plain_graph.indices_ = ix ∧
      plain_graph.node_type_offset_ = stray_archive.flagged_tensor
        "CSCSamplingGraph/has_node_type_offset" "CSCSamplingGraph/node_type_offset" ∧
      plain_graph.type_per_edge_ = stray_archive.flagged_tensor
        "CSCSamplingGraph/has_type_per_edge" "CSCSamplingGraph/type_per_edge" ∧
      ((∃ g', CSCSamplingGraph.FromCSC plain_graph.indptr_ plain_graph.indices_
            plain_graph.node_type_offset_ plain_graph.type_per_edge_ = .ok g') ↔
        (ip.dim = 1 ∧ ix.dim = 1 ∧ ip.device = ix.device ∧
          (∀ t, stray_archive.flagged_tensor "CSCSamplingGraph/has_node_type_offset"
            "CSCSamplingGraph/node_type_offset" = some t → t.dim = 1) ∧
          (∀ t, stray_archive.flagged_tensor "CSCSamplingGraph/has_type_per_edge"
            "CSCSamplingGraph/type_per_edge" = some t → t.dim = 1 ∧ t.size 0 = ix.size 0))) :=
  Load_fields_unvalidated 7 plain_graph stray_archive (by decide)

/-- C13 as stated fails: `Load` of an archive whose `indptr` field is a rank-2
tensor into a fresh instance succeeds, the instance then holds that rank-2
`indptr`, and `FromCSC` on the loaded fields fails its `indptr` rank check. -/
theorem Load_unvalidated_counterexample :
    CSCSamplingGraph.Load 7 CSCSamplingGraph.fresh unvalidated_archive
      = (unvalidated_graph, .ok ()) ∧
    unvalidated_graph.indptr_.dim = 2 ∧
    CSCSamplingGraph.FromCSC unvalidated_graph.indptr_ unvalidated_graph.indices_
        unvalidated_graph.node_type_offset_ unvalidated_graph.type_per_edge_
      = .error (.check_failed "indptr.dim() == 1" "") := by
  decide

/-! ## The order of the checks -/

theorem size_cases (t : Tensor) :
    (∃ m rest, t.sizes = m :: rest ∧ t.size 0 = .ok m) ∨
    (t.sizes = [] ∧ t.size 0 = .error (.index_error 0)) := by
  obtain ⟨sizes, dtype, device, data⟩ := t
  cases sizes with
  | nil => exact Or.inr ⟨rfl, rfl⟩
  | cons n rest => exact Or.inl ⟨n, rest, rfl, rfl⟩

theorem reported_check_node_type_offset_rank :
    (Error.check_failed "offset.dim() == 1" "").reported_check
      = some .node_type_offset_rank := by decide

theorem reported_check_type_per_edge_rank :
    (Error.check_failed "type_per_edge.value().dim() == 1" "").reported_check
      = some .type_per_edge_rank := by decide

theorem reported_check_type_per_edge_length :
    (Error.check_failed "type_per_edge.value().size(0) == indices.size(0)" "").reported_check
      = some .type_per_edge_length := by decide

theorem reported_check_indptr_rank :
    (Error.check_failed "indptr.dim() == 1" "").reported_check = some .indptr_rank := by decide

theorem reported_check_indices_rank :
    (Error.check_failed "indices.dim() == 1" "").reported_check = some .indices_rank := by
  decide

theorem reported_check_storage_location :
    (Error.check_failed "indptr.device() == indices.device()" "").reported_check
      = some .storage_location := by decide

theorem reported_check_index_error (d : Nat) :
    (Error.index_error d).reported_check = none := rfl

theorem FromCSC_first_violated (indptr indices : Tensor) (nto tpe : Option Tensor) :
    (∃ g, CSCSamplingGraph.FromCSC indptr indices nto tpe = .ok g ∧
      first_violated indptr indices nto tpe = none) ∨
    (∃ e c, CSCSamplingGraph.FromCSC indptr indices nto tpe = .error e ∧
      first_violated indptr indices nto tpe = some c ∧
      ((indices_length_unreadable indices nto tpe = false ∧ e.reported_check = some c) ∨
        (indices_length_unreadable indices nto tpe = true ∧ e = .index_error 0 ∧
          (c = .indptr_rank ∨ c = .indices_rank)))) := by
  have hn : nto = none ∨ (∃ o, nto = some o ∧ o.dim = 1) ∨ (∃ o, nto = some o ∧ o.dim ≠ 1) := by
    cases nto with
    | none => exact Or.inl rfl
    | some o =>
      by_cases h : o.dim = 1
      · exact Or.inr (Or.inl ⟨o, rfl, h⟩)
      · exact Or.inr (Or.inr ⟨o, rfl, h⟩)
  have ht : tpe = none ∨
      (∃ t n, tpe = some t ∧ t.dim = 1 ∧ t.sizes = [n] ∧ t.size 0 = .ok n) ∨
      (∃ t, tpe = some t ∧ t.dim ≠ 1) := by
    cases tpe with
    | none => exact Or.inl rfl
    | some t =>
      by_cases h : t.dim = 1
      · obtain ⟨n, hs, hn⟩ := size_zero_of_dim_one t h
        exact Or.inr (Or.inl ⟨t, n, rfl, h, hs, hn⟩)
      · exact Or.inr (Or.inr ⟨t, rfl, h⟩)
  have hd : indices.dim = indices.sizes.length := rfl
  rcases hn with rfl | ⟨o, rfl, ho⟩ | ⟨o, rfl, ho⟩ <;>
  rcases ht with rfl | ⟨t, n, rfl, ht, hts, hn⟩ | ⟨t, rfl, ht⟩ <;>
  rcases size_cases indices with ⟨m, rest, hms, hm⟩ | ⟨hms, hm⟩ <;>
  by_cases h₄ : indptr.dim = 1 <;> by_cases h₅ : indices.dim = 1 <;>
  by_cases h₆ : indptr.device = indices.device <;>
  (try by_cases hnm : n = m) <;>
  simp_all [CSCSamplingGraph.FromCSC, FromCSC.check_node_type_offset,
    FromCSC.check_type_per_edge, CSCSamplingGraph.init, first_violated, Check.order,
    Check.violated, List.find?, Tensor.length, indices_length_unreadable,
    reported_check_node_type_offset_rank,
    reported_check_type_per_edge_rank, reported_check_type_per_edge_length,
    reported_check_indptr_rank, reported_check_indices_rank,
    reported_check_storage_location, reported_check_index_error]

/-- C14, as the code has it: when the arguments of `FromCSC` violate some check,
the call fails; the first violated check in the order `node_type_offset` rank,
`type_per_edge` rank, `type_per_edge` length against `indices` length, `indptr`
rank, `indices` rank, storage location is one the arguments violate and is a
check on an optional argument whenever any such check is violated; and the
error reports that check, unless `indices` has rank 0 while both optional
arguments pass their rank checks and `type_per_edge` is supplied: then the error
is the out-of-range error of `indices.size(0)`, which reports none of the six
checks and comes ahead of the violated `indptr` or `indices` rank check. -/
theorem FromCSC_reports_first_violated (indptr indices : Tensor) (nto tpe : Option Tensor)
    (c : Check) (h : first_violated indptr indices nto tpe = some c) :
    ∃ e, CSCSamplingGraph.FromCSC indptr indices nto tpe = .error e ∧
      c.violated indptr indices nto tpe = true ∧
      (∀ c' : Check, c'.is_optional = true → c'.violated indptr indices nto tpe = true →
        c.is_optional = true) ∧
      (indices_length_unreadable indices nto tpe = false → e.reported_check = some c) ∧
      (indices_length_unreadable indices nto tpe = true →
        e = .index_error 0 ∧ e.reported_check = none ∧
          (c = .indptr_rank ∨ c = .indices_rank)) := by
  rcases FromCSC_first_violated indptr indices nto tpe with ⟨g, -, hnone⟩ | ⟨e, c₀, he, hc, hr⟩
  · rw [hnone] at h
    cases h
  · rw [hc] at h
    cases h
    refine ⟨e, he, ?_, ?_, ?_, ?_⟩
    · have := List.find?_some hc
      simpa using this
    · intro c' hopt hviol
      unfold first_violated Check.order at hc
      cases h₁ : Check.violated indptr indices nto tpe .node_type_offset_rank <;>
      cases h₂ : Check.violated indptr indices nto tpe .type_per_edge_rank <;>
      cases h₃ : Check.violated indptr indices nto tpe .type_per_edge_length <;>
      simp [List.find?, h₁, h₂, h₃] at hc <;>
      first
        | (subst hc; rfl)
        | (cases c' <;> simp_all [Check.is_optional])
    · intro hu
      rcases hr with ⟨-, hr⟩ | ⟨hu', -⟩
      · exact hr
      · rw [hu] at hu'
        cases hu'
    · intro hu
      rcases hr with ⟨hu', -⟩ | ⟨-, hr, hcc⟩
      · rw [hu] at hu'
        cases hu'
      · subst hr
        exact ⟨rfl, rfl, hcc⟩

theorem FromCSC_reports_first_violated_witness :
    ∃ e, CSCSamplingGraph.FromCSC grid (cuda_vec [1, 2, 0]) none (some (vec [0])) = .error e ∧
      Check.violated grid (cuda_vec [1, 2, 0]) none (some (vec [0])) .type_per_edge_length
        = true ∧
      (∀ c' : Check, c'.is_optional = true →
        c'.violated grid (cuda_vec [1, 2, 0]) none (some (vec [0])) = true →
        Check.is_optional .type_per_edge_length = true) ∧
      (indices_length_unreadable (cuda_vec [1, 2, 0]) none (some (vec [0])) = false →
        e.reported_check = some .type_per_edge_length) ∧
      (indices_length_unreadable (cuda_vec [1, 2, 0]) none (some (vec [0])) = true →
        e = .index_error 0 ∧ e.reported_check = none ∧
          (Check.type_per_edge_length = .indptr_rank ∨
            Check.type_per_edge_length = .indices_rank)) :=
  FromCSC_reports_first_violated grid (cuda_vec [1, 2, 0]) none (some (vec [0]))
    .type_per_edge_length (by decide)

/-- C14 as stated fails: with a rank-2 `indptr`, a rank-0 `indices` and a
`type_per_edge` of rank 1 and one element, no check on an optional argument is
violated, the first violated check is the rank of `indptr`, and `FromCSC` fails
with the out-of-range error of `indices.size(0)`, which reports no check and is
not the failure of the `indptr` rank check. -/
theorem FromCSC_index_error_counterexample :
    grid.dim = 2 ∧ scalar.dim = 0 ∧ (vec [4]).dim = 1 ∧
    Check.violated grid scalar none (some (vec [4])) .node_type_offset_rank = false ∧
    Check.violated grid scalar none (some (vec [4])) .type_per_edge_rank = false ∧
    Check.violated grid scalar none (some (vec [4])) .type_per_edge_length = false ∧
    Check.violated grid scalar none (some (vec [4])) .indptr_rank = true ∧
    first_violated grid scalar none (some (vec [4])) = some .indptr_rank ∧
    CSCSamplingGraph.FromCSC grid scalar none (some (vec [4])) = .error (.index_error 0) ∧
    (Error.index_error 0).reported_check = none ∧
    CSCSamplingGraph.FromCSC grid scalar none (some (vec [4]))
      ≠ .error (.check_failed "indptr.dim() == 1" "") := by
  decide

/-! ## Claims on a failing Load -/

/-- C15: a `Load` that fails at the magic number (the field absent, not an
integer, or another integer than the constant) fails and leaves the four members
of the instance as they were. -/
theorem Load_magic_failure_keeps_fields (k : Int) (self : CSCSamplingGraph)
    (archive : Archive)
    (h : archive.read "CSCSamplingGraph/magic_num" = none ∨
      archive.has_int "CSCSamplingGraph/magic_num" = false ∨
      ∃ n, archive.read "CSCSamplingGraph/magic_num" = some (.int n) ∧ n ≠ k) :
    (∃ e, (CSCSamplingGraph.Load k self archive).2 = .error e) ∧
    (CSCSamplingGraph.Load k self archive).1 = self ∧
    (CSCSamplingGraph.Load k self archive).1.indptr_ = self.indptr_ ∧
    (CSCSamplingGraph.Load k self archive).1.indices_ = self.indices_ ∧
    (CSCSamplingGraph.Load k self archive).1.node_type_offset_ = self.node_type_offset_ ∧
    (CSCSamplingGraph.Load k self archive).1.type_per_edge_ = self.type_per_edge_ := by
  have key : (∃ e, (CSCSamplingGraph.Load k self archive).2 = .error e) ∧
      (CSCSamplingGraph.Load k self archive).1 = self := by
    unfold CSCSamplingGraph.Load
    rcases read_int_cases archive "CSCSamplingGraph/magic_num" with
      ⟨n, h₁, h₁'⟩ | ⟨h₁, e₁, h₁'⟩
    · have hne : n ≠ k := by
        rcases h with h | h | ⟨m, hm, hmk⟩
        · simp [h₁] at h
        · simp [Archive.has_int, h₁] at h
        · rw [h₁] at hm
          cases hm
          exact hmk
      simp [h₁', hne]
    · simp [h₁']
  obtain ⟨hfail, hsame⟩ := key
  exact ⟨hfail, hsame, by rw [hsame], by rw [hsame], by rw [hsame], by rw [hsame]⟩

theorem Load_magic_failure_keeps_fields_witness :
    (∃ e, (CSCSamplingGraph.Load 7 typed_graph []).2 = .error e) ∧
    (CSCSamplingGraph.Load 7 typed_graph []).1 = typed_graph ∧
    (CSCSamplingGraph.Load 7 typed_graph []).1.indptr_ = typed_graph.indptr_ ∧
    (CSCSamplingGraph.Load 7 typed_graph []).1.indices_ = typed_graph.indices_ ∧
    (CSCSamplingGraph.Load 7 typed_graph []).1.node_type_offset_
      = typed_graph.node_type_offset_ ∧
    (CSCSamplingGraph.Load 7 typed_graph []).1.type_per_edge_ = typed_graph.type_per_edge_ :=
  Load_magic_failure_keeps_fields 7 typed_graph [] (Or.inl (by decide))

/-- C16: with a matching magic number and a tensor `indptr` field, a `Load`
that fails has overwritten `indptr` with the archive's and has not touched
`type_per_edge`; if it failed at `indices`, then `indices` and
`node_type_offset` are the previous ones; otherwise `indices` is the archive's,
and `node_type_offset` is the archive's when its flag is true and its field a
tensor, and the previous one when the flag or the field could not be read or
the flag is false. -/
theorem Load_failure_partial_overwrite (k : Int) (self : CSCSamplingGraph)
    (archive : Archive) (ip : Tensor) (e : Error)
    (hm : archive.read "CSCSamplingGraph/magic_num" = some (.int k))
    (hip : archive.read "CSCSamplingGraph/indptr" = some (.tensor ip))
    (hfail : (CSCSamplingGraph.Load k self archive).2 = .error e) :
    (CSCSamplingGraph.Load k self archive).1.indptr_ = ip ∧
    (CSCSamplingGraph.Load k self archive).1.type_per_edge_ = self.type_per_edge_ ∧
    (archive.has_tensor "CSCSamplingGraph/indices" = false →
      (CSCSamplingGraph.Load k self archive).1.indices_ = self.indices_ ∧
      (CSCSamplingGraph.Load k self archive).1.node_type_offset_ = self.node_type_offset_) ∧
    (∀ ix, archive.read "CSCSamplingGraph/indices" = some (.tensor ix) →
      (CSCSamplingGraph.Load k self archive).1.indices_ = ix ∧
      (archive.has_bool "CSCSamplingGraph/has_node_type_offset" = false →
        (CSCSamplingGraph.Load k self archive).1.node_type_offset_
          = self.node_type_offset_) ∧
      (archive.read "CSCSamplingGraph/has_node_type_offset" = some (.bool false) →
        (CSCSamplingGraph.Load k self archive).1.node_type_offset_
          = self.node_type_offset_) ∧
      (archive.read "CSCSamplingGraph/has_node_type_offset" = some (.bool true) →
        archive.has_tensor "CSCSamplingGraph/node_type_offset" = false →
        (CSCSamplingGraph.Load k self archive).1.node_type_offset_
          = self.node_type_offset_) ∧
      (∀ tn, archive.read "CSCSamplingGraph/has_node_type_offset" = some (.bool true) →
        archive.read "CSCSamplingGraph/node_type_offset" = some (.tensor tn) →
        (CSCSamplingGraph.Load k self archive).1.node_type_offset_ = some tn)) := by
  have is_bool : ∀ key b, archive.read key = some (.bool b) → archive.has_bool key = true := by
    intro key b h; simp [Archive.has_bool, h]
  have is_tensor : ∀ key t, archive.read key = some (.tensor t) →
      archive.has_tensor key = true := by
    intro key t h; simp [Archive.has_tensor, h]
  have h₁' : (read_from_archive archive "CSCSamplingGraph/magic_num").bind IValue.toInt
      = .ok k := by
    simp [read_from_archive, hm, Except.bind, IValue.toInt]
  have h₂' : (read_from_archive archive "CSCSamplingGraph/indptr").bind IValue.toTensor
      = .ok ip := by
    simp [read_from_archive, hip, Except.bind, IValue.toTensor]
  unfold CSCSamplingGraph.Load at hfail ⊢
  rcases read_tensor_cases archive "CSCSamplingGraph/indices" with ⟨ix, h₃, h₃'⟩ | ⟨h₃, e₃, h₃'⟩
  swap
  · simp [h₁', h₂', h₃, h₃']
    intro ix hix
    simp [is_tensor _ _ hix] at h₃
  rcases read_bool_cases archive "CSCSamplingGraph/has_node_type_offset" with
    ⟨bn, h₄, h₄'⟩ | ⟨h₄, e₄, h₄'⟩
  swap
  · simp [h₁', h₂', h₃, h₃', h₄, h₄', is_tensor _ _ h₃]
    intro tn hb
    simp [is_bool _ _ hb] at h₄
  rcases read_bool_cases archive "CSCSamplingGraph/has_type_per_edge" with
    ⟨bt, h₆, h₆'⟩ | ⟨h₆, e₆, h₆'⟩ <;>
  rcases read_tensor_cases archive "CSCSamplingGraph/node_type_offset" with
    ⟨tn, h₅, h₅'⟩ | ⟨h₅, e₅, h₅'⟩ <;>
  rcases read_tensor_cases archive "CSCSamplingGraph/type_per_edge" with
    ⟨tt, h₇, h₇'⟩ | ⟨h₇, e₇, h₇'⟩ <;>
  cases bn <;> (try cases bt) <;>
  simp [h₁', h₂', h₃', h₄', h₅', h₆', h₇'] at hfail <;>
  simp [h₁', h₂', h₃, h₃', h₄, h₄', h₅, h₅', h₆', h₇', is_tensor _ _ h₃, is_bool _ _ h₄] <;>
  first
    | done
    | (intro hc
       simp [is_tensor _ _ h₅] at hc)
    | (intro tn htn
       simp [is_tensor _ _ htn] at h₅)

theorem Load_failure_partial_overwrite_witness :
    (CSCSamplingGraph.Load 7 typed_graph truncated_archive).1.indptr_ = vec [0, 2, 3, 3] ∧
    (CSCSamplingGraph.Load 7 typed_graph truncated_archive).1.type_per_edge_
      = typed_graph.type_per_edge_ ∧
    (truncated_archive.has_tensor "CSCSamplingGraph/indices" = false →
      (CSCSamplingGraph.Load 7 typed_graph truncated_archive).1.indices_
        = typed_graph.indices_ ∧
      (CSCSamplingGraph.Load 7 typed_graph truncated_archive).1.node_type_offset_
        = typed_graph.node_type_offset_) ∧
    (∀ ix, truncated_archive.read "CSCSamplingGraph/indices" = some (.tensor ix) →
      (CSCSamplingGraph.Load 7 typed_graph truncated_archive).1.indices_ = ix ∧
      (truncated_archive.has_bool "CSCSamplingGraph/has_node_type_offset" = false →
        (CSCSamplingGraph.Load 7 typed_graph truncated_archive).1.node_type_offset_
          = typed_graph.node_type_offset_) ∧
      (truncated_archive.read "CSCSamplingGraph/has_node_type_offset" = some (.bool false) →
        (CSCSamplingGraph.Load 7 typed_graph truncated_archive).1.node_type_offset_
          = typed_graph.node_type_offset_) ∧
      (truncated_archive.read "CSCSamplingGraph/has_node_type_offset" = some (.bool true) →
        truncated_archive.has_tensor "CSCSamplingGraph/node_type_offset" = false →
        (CSCSamplingGraph.Load 7 typed_graph truncated_archive).1.node_type_offset_
          = typed_graph.node_type_offset_) ∧
      (∀ tn, truncated_archive.read "CSCSamplingGraph/has_node_type_offset"
          = some (.bool true) →
        truncated_archive.read "CSCSamplingGraph/node_type_offset" = some (.tensor tn) →
        (CSCSamplingGraph.Load 7 typed_graph truncated_archive).1.node_type_offset_
          = some tn)) :=
  Load_failure_partial_overwrite 7 typed_graph truncated_archive (vec [0, 2, 3, 3])
    (.missing_field "CSCSamplingGraph/has_type_per_edge") (by decide) (by decide) (by decide)

end sampling
end graphbolt
